import Mathlib

/-!
Formal model of the cascaded shadow-mapping pass
(`src/app/render/passes/ShadowMappingPass.ts`) and of the `WaterMask`
renderable object of the streets_gl repository.

Conventions of the shallow embedding:
* 4x4 matrices are opaque tokens (`Mat4` wraps a `Nat`); the external
  `Mat4.multiply` is modelled by an injective pairing so that distinct
  inputs give distinct model-view tokens.  No claim depends on matrix
  arithmetic, only on which matrices are written where.
* GPU-visible side effects (material binds, uniform writes, uniform-block
  flushes, draw calls, render-pass begins) are recorded as an event trace
  (`Ev`); the render methods are pure functions from the scene state to
  such a trace.
* A JavaScript `TypeError` (property access on `null`) is modelled by an
  `Ev.typeError` event together with an `ok := false` flag that makes the
  rest of the frame's trace empty (`Tr.seq` drops the continuation after a
  throw), matching exception propagation out of `render()`.
-/

/-- Opaque token standing for the external `Mat4` value class.  Only
identity of matrices matters to the shadow pass, never their entries. -/
structure Mat4 where
  val : Nat
  deriving DecidableEq

/-- Token model of the external `Mat4.multiply(a, b)`: an injective pairing,
so the model-view matrix computed from a camera and a world transform is a
distinct token determined by both. -/
def Mat4.multiply (a b : Mat4) : Mat4 :=
  ⟨Nat.pair a.val b.val⟩

/-- Camera of one cascade (`CSMCascadeCamera`): the pass reads only its
`projectionMatrix` and `matrixWorldInverse`. -/
structure CSMCascadeCamera where
  projectionMatrix : Mat4
  matrixWorldInverse : Mat4
  deriving DecidableEq

/-- The three CSM fields the settings handler writes on the scene's `csm`
object: `csm.cascades`, `csm.resolution`, `csm.far`. -/
structure CSMConfig where
  cascades : Nat
  resolution : Nat
  far : Nat
  deriving DecidableEq

/-- The `csm` scene object: its three settings-driven fields plus the
derived `cascadeCameras` array read by `render()`. -/
structure CSMState where
  config : CSMConfig
  cascadeCameras : List CSMCascadeCamera
  deriving DecidableEq

/-- Modelled from the spec: `CSM.updateCascades` is not under `src/`; the
spec says it rebuilds all cascade cameras for the new count/far-distance.
The cameras are deterministic tokens of the config, one per cascade index,
so the list length equals `config.cascades`. -/
def buildCascadeCameras (c : CSMConfig) : List CSMCascadeCamera :=
  (List.range c.cascades).map fun i =>
    ⟨⟨Nat.pair (Nat.pair c.far i) 0⟩, ⟨Nat.pair (Nat.pair c.far i) 1⟩⟩

/-- Modelled from the spec: `csm.updateCascades()` — rebuild the cascade
camera list in full from the current config. -/
def CSMState.updateCascades (s : CSMState) : CSMState :=
  ⟨s.config, buildCascadeCameras s.config⟩

/-- Size descriptor of the `ShadowMaps` render-graph resource. -/
structure Descriptor where
  width : Nat
  height : Nat
  depth : Nat
  deriving DecidableEq

/-- Modelled from the spec: `descriptor.setSize(width, height, depth)` of
the external render-graph resource replaces all three dimensions. -/
def Descriptor.setSize (d : Descriptor) (width height depth : Nat) : Descriptor :=
  ⟨width, height, depth⟩

/-- The state the settings path of `ShadowMappingPass` touches: the shared
`csm` scene object and the `ShadowMaps` resource descriptor. -/
structure PassState where
  csm : CSMState
  shadowMapsDescriptor : Descriptor
  deriving DecidableEq

/-- Observable steps of the settings handler, recorded in call order. -/
inductive SettingsEv where
  | updateCascades
  | setDescriptorSize (width height depth : Nat)
  deriving DecidableEq

/-- The tier→config mapping of the `'shadows'` settings handler in
`listenToSettings`: `'low'` and `'medium'` are tested explicitly and every
other value falls into the final `else` branch. -/
def shadowsSettingConfig (statusValue : String) : CSMConfig :=
  if statusValue = "low" then ⟨1, 2048, 3000⟩
  else if statusValue = "medium" then ⟨3, 2048, 4000⟩
  else ⟨3, 4096, 5000⟩

/-- `updateShadowMapDescriptor()`: re-describes the `ShadowMaps` resource to
`(csm.resolution, csm.resolution, csm.cascades)`. -/
def updateShadowMapDescriptor (st : PassState) : PassState :=
  ⟨st.csm,
   st.shadowMapsDescriptor.setSize st.csm.config.resolution st.csm.config.resolution
     st.csm.config.cascades⟩

/-- One invocation of the `'shadows'` settings handler: write the tier's
config onto `csm`, then `csm.updateCascades()`, then
`updateShadowMapDescriptor()`.  Returns the new state together with the
trace of the two side-effecting calls, in call order. -/
def applyShadowsSetting (statusValue : String) (st : PassState) : PassState × List SettingsEv :=
  let cfg := shadowsSettingConfig statusValue
  let stCfg : PassState := ⟨⟨cfg, st.csm.cascadeCameras⟩, st.shadowMapsDescriptor⟩
  let stCas : PassState := ⟨stCfg.csm.updateCascades, stCfg.shadowMapsDescriptor⟩
  (updateShadowMapDescriptor stCas,
   [SettingsEv.updateCascades,
    SettingsEv.setDescriptorSize stCas.csm.config.resolution stCas.csm.config.resolution
      stCas.csm.config.cascades])

/-- `listenToSettings()` registers the handler with `fireImmediately = true`
(the trailing `true` argument of `onChange`), so one application happens
synchronously at construction with the currently stored setting value. -/
def listenToSettings (initialValue : String) (st : PassState) : PassState × List SettingsEv :=
  applyShadowsSetting initialValue st

/-- `setSize(width, height)` of `ShadowMappingPass`: an empty body. -/
def ShadowMappingPass.setSize (width height : Nat) (st : PassState) : PassState :=
  st

/-- Identifies the five depth materials held by the pass. -/
inductive MaterialId where
  | building
  | hugging
  | tree
  | inst
  | aircraft
  deriving DecidableEq

/-- Identifies the mesh a draw call targets: a tile's extruded or hugging
mesh (by tile id), an instanced object (by its registry name), or an
aircraft (by its list index). -/
inductive DrawTarget where
  | extruded (tileId : Nat)
  | hugging (tileId : Nat)
  | instanced (name : String)
  | aircraft (index : Nat)
  deriving DecidableEq

/-- Value written into a uniform slot. -/
inductive UniformValue where
  | mat (m : Mat4)
  | tex (t : Nat)
  | f1 (x : Nat)
  | f4 (a b c d : Nat)
  deriving DecidableEq

/-- GPU-visible side effects of the render methods, in program order.
`writeUniform` records the material, the uniform name, the uniform-block
name passed to `getUniform` (`none` when the call has no block argument,
as for `tRingHeight`), and the value; `updateUniformBlock` is a flush;
`typeError` marks a JavaScript null-property access. -/
inductive Ev where
  | beginRenderPass (slice : Nat)
  | useMaterial (material : MaterialId)
  | writeUniform (material : MaterialId) (uniform : String) (block : Option String)
      (value : UniformValue)
  | updateUniformBlock (material : MaterialId) (block : String)
  | draw (target : DrawTarget)
  | typeError
  deriving DecidableEq

/-- Trace of a possibly-throwing code region: the events it emitted and
whether it finished normally (`ok = true`) or threw. -/
structure Tr where
  events : List Ev
  ok : Bool
  deriving DecidableEq

/-- Sequencing with exception propagation: after a throw the continuation
never runs, so its events are dropped. -/
def Tr.seq (a b : Tr) : Tr :=
  if a.ok then ⟨a.events ++ b.events, b.ok⟩ else a

/-- Trace of a region that cannot throw. -/
def Tr.pure (l : List Ev) : Tr :=
  ⟨l, true⟩

/-- Mesh stored on a tile (`extrudedMesh` / `huggingMesh`): the pass calls
only its `inCameraFrustum` test and `draw`. -/
structure TileMesh where
  inCameraFrustum : CSMCascadeCamera → Bool

/-- Tile of the scene's tile list.  `id` identifies the tile's meshes in
draw events; both mesh handles are optional, as in the source checks. -/
structure Tile where
  id : Nat
  matrixWorld : Mat4
  extrudedMesh : Option TileMesh
  huggingMesh : Option TileMesh

/-- Ring metadata of the terrain collaborator (`ring0`). -/
structure TerrainRing where
  size : Nat
  segmentCount : Nat

/-- Result of `terrain.getTileParams(tile)`. -/
structure TileParams where
  ring0 : TerrainRing
  levelId : Nat
  ring0OffsetX : Nat
  ring0OffsetY : Nat
  ring1OffsetX : Nat
  ring1OffsetY : Nat

/-- Instanced object of the registry.  `renderInstances` reads its
`matrixWorld` and `mesh`; the mesh handle is the optional drawable of the
spec's GeometryItem model.  `inCameraFrustum` is the frustum-test
capability of that model; the source's `renderInstances` never consults
it. -/
structure InstancedObject where
  matrixWorld : Mat4
  mesh : Option Nat
  inCameraFrustum : CSMCascadeCamera → Bool

/-- Mesh of an instanced aircraft: the pass reads its `instanceCount`. -/
structure AircraftMesh where
  instanceCount : Nat

/-- Instanced aircraft of `instancedAircraft`.  `inCameraFrustum` is the
frustum-test capability of the spec's GeometryItem model; the source's
`renderAircraft` never consults it. -/
structure Aircraft where
  matrixWorld : Mat4
  mesh : Option AircraftMesh
  inCameraFrustum : CSMCascadeCamera → Bool

/-- The scene collections the render methods iterate, plus the terrain
collaborator's `getTileParams`.  The instanced-object registry is its
entry list in insertion order. -/
structure SceneObjects where
  tiles : List Tile
  instancedObjects : List (String × InstancedObject)
  instancedAircraft : List Aircraft
  getTileParams : Tile → TileParams

/-- Events of `renderBuildings` before its tile loop: bind the building
depth material, write the cascade's projection matrix into `PerMaterial`,
flush `PerMaterial`. -/
def buildingsHeader (cam : CSMCascadeCamera) : List Ev :=
  [Ev.useMaterial MaterialId.building,
   Ev.writeUniform MaterialId.building "projectionMatrix" (some "PerMaterial")
     (UniformValue.mat cam.projectionMatrix),
   Ev.updateUniformBlock MaterialId.building "PerMaterial"]

/-- Per-tile body of the `renderBuildings` loop: skip when the extruded
mesh is absent or fails the frustum test, else write and flush the
`PerMesh` model-view matrix and draw. -/
def tileBuildingEvents (cam : CSMCascadeCamera) (tile : Tile) : List Ev :=
  match tile.extrudedMesh with
  | none => []
  | some m =>
    if m.inCameraFrustum cam then
      [Ev.writeUniform MaterialId.building "modelViewMatrix" (some "PerMesh")
         (UniformValue.mat (Mat4.multiply cam.matrixWorldInverse tile.matrixWorld)),
       Ev.updateUniformBlock MaterialId.building "PerMesh",
       Ev.draw (DrawTarget.extruded tile.id)]
    else []

/-- The tile loop of `renderBuildings`. -/
def buildingsLoop (cam : CSMCascadeCamera) : List Tile → List Ev
  | [] => []
  | tile :: rest => tileBuildingEvents cam tile ++ buildingsLoop cam rest

/-- `renderBuildings(shadowCamera)`. -/
def renderBuildings (cam : CSMCascadeCamera) (tiles : List Tile) : List Ev :=
  buildingsHeader cam ++ buildingsLoop cam tiles

/-- Events of `renderHuggingMeshes` before its tile loop, in source order:
write the `tRingHeight` texture uniform (no block argument), bind the
hugging-mesh depth material, write the projection matrix into
`PerMaterial`, flush `PerMaterial`. -/
def huggingHeader (cam : CSMCascadeCamera) (ringHeightTex : Nat) : List Ev :=
  [Ev.writeUniform MaterialId.hugging "tRingHeight" none (UniformValue.tex ringHeightTex),
   Ev.useMaterial MaterialId.hugging,
   Ev.writeUniform MaterialId.hugging "projectionMatrix" (some "PerMaterial")
     (UniformValue.mat cam.projectionMatrix),
   Ev.updateUniformBlock MaterialId.hugging "PerMaterial"]

/-- Per-tile body of the `renderHuggingMeshes` loop: skip when the hugging
mesh is absent or fails the frustum test, else write the `PerMesh`
uniforms (model-view matrix, ring size, ring offsets, level id, doubled
segment count), flush, and draw. -/
def tileHuggingEvents (cam : CSMCascadeCamera) (params : Tile → TileParams) (tile : Tile) :
    List Ev :=
  match tile.huggingMesh with
  | none => []
  | some m =>
    if m.inCameraFrustum cam then
      let p := params tile
      [Ev.writeUniform MaterialId.hugging "modelViewMatrix" (some "PerMesh")
         (UniformValue.mat (Mat4.multiply cam.matrixWorldInverse tile.matrixWorld)),
       Ev.writeUniform MaterialId.hugging "terrainRingSize" (some "PerMesh")
         (UniformValue.f1 p.ring0.size),
       Ev.writeUniform MaterialId.hugging "terrainRingOffset" (some "PerMesh")
         (UniformValue.f4 p.ring0OffsetX p.ring0OffsetY p.ring1OffsetX p.ring1OffsetY),
       Ev.writeUniform MaterialId.hugging "terrainLevelId" (some "PerMesh")
         (UniformValue.f1 p.levelId),
       Ev.writeUniform MaterialId.hugging "segmentCount" (some "PerMesh")
         (UniformValue.f1 (p.ring0.segmentCount * 2)),
       Ev.updateUniformBlock MaterialId.hugging "PerMesh",
       Ev.draw (DrawTarget.hugging tile.id)]
    else []

/-- The tile loop of `renderHuggingMeshes`. -/
def huggingLoop (cam : CSMCascadeCamera) (params : Tile → TileParams) : List Tile → List Ev
  | [] => []
  | tile :: rest => tileHuggingEvents cam params tile ++ huggingLoop cam params rest

/-- `renderHuggingMeshes(shadowCamera)`. -/
def renderHuggingMeshes (cam : CSMCascadeCamera) (params : Tile → TileParams)
    (ringHeightTex : Nat) (tiles : List Tile) : List Ev :=
  huggingHeader cam ringHeightTex ++ huggingLoop cam params tiles

/-- Per-entry body of the `renderInstances` loop: pick the tree material
exactly when the registry name is `"tree"`, bind it, write and flush the
`MainBlock` uniforms, then call `instancedObject.mesh.draw()` — with no
mesh-presence guard, so an absent mesh is a `TypeError` at the `.draw`
property access, after the bind and the uniform writes already happened. -/
def instanceEntryTr (cam : CSMCascadeCamera) (name : String) (obj : InstancedObject) : Tr :=
  let material := if name = "tree" then MaterialId.tree else MaterialId.inst
  let pre : List Ev :=
    [Ev.useMaterial material,
     Ev.writeUniform material "projectionMatrix" (some "MainBlock")
       (UniformValue.mat cam.projectionMatrix),
     Ev.writeUniform material "modelViewMatrix" (some "MainBlock")
       (UniformValue.mat (Mat4.multiply cam.matrixWorldInverse obj.matrixWorld)),
     Ev.updateUniformBlock material "MainBlock"]
  match obj.mesh with
  | some _ => ⟨pre ++ [Ev.draw (DrawTarget.instanced name)], true⟩
  | none => ⟨pre ++ [Ev.typeError], false⟩

/-- The entry loop of `renderInstances` over the registry entries. -/
def instancesLoop (cam : CSMCascadeCamera) : List (String × InstancedObject) → Tr
  | [] => Tr.pure []
  | e :: rest => (instanceEntryTr cam e.1 e.2).seq (instancesLoop cam rest)

/-- `renderInstances(shadowCamera)`. -/
def renderInstances (cam : CSMCascadeCamera) (objs : List (String × InstancedObject)) : Tr :=
  instancesLoop cam objs

/-- Per-item body of the `renderAircraft` loop at list index `i`: only when
the mesh is present and `instanceCount > 0`, bind the aircraft material,
write and flush the `MainBlock` uniforms, and draw. -/
def aircraftItemEvents (cam : CSMCascadeCamera) (i : Nat) (a : Aircraft) : List Ev :=
  match a.mesh with
  | some m =>
    if m.instanceCount > 0 then
      [Ev.useMaterial MaterialId.aircraft,
       Ev.writeUniform MaterialId.aircraft "projectionMatrix" (some "MainBlock")
         (UniformValue.mat cam.projectionMatrix),
       Ev.writeUniform MaterialId.aircraft "modelViewMatrix" (some "MainBlock")
         (UniformValue.mat (Mat4.multiply cam.matrixWorldInverse a.matrixWorld)),
       Ev.updateUniformBlock MaterialId.aircraft "MainBlock",
       Ev.draw (DrawTarget.aircraft i)]
    else []
  | none => []

/-- The indexed `for` loop of `renderAircraft`, starting at index `i`. -/
def aircraftLoop (cam : CSMCascadeCamera) (i : Nat) : List Aircraft → List Ev
  | [] => []
  | a :: rest => aircraftItemEvents cam i a ++ aircraftLoop cam (i + 1) rest

/-- `renderAircraft(shadowCamera)`. -/
def renderAircraft (cam : CSMCascadeCamera) (l : List Aircraft) : List Ev :=
  aircraftLoop cam 0 l

/-- Body of the cascade loop of `render()` at cascade index `i`: select
output slice `i` and begin the render pass, render instanced objects and
aircraft only when `i < 2`, then always render buildings and hugging
meshes. -/
def cascadeTr (scene : SceneObjects) (ringHeightTex : Nat) (i : Nat)
    (cam : CSMCascadeCamera) : Tr :=
  (Tr.pure [Ev.beginRenderPass i]).seq
    (((if i < 2 then
        (renderInstances cam scene.instancedObjects).seq
          (Tr.pure (renderAircraft cam scene.instancedAircraft))
      else Tr.pure [])).seq
      (Tr.pure (renderBuildings cam scene.tiles ++
        renderHuggingMeshes cam scene.getTileParams ringHeightTex scene.tiles)))

/-- The cascade loop of `render()` over `csm.cascadeCameras`, starting at
cascade index `i`. -/
def renderLoop (scene : SceneObjects) (ringHeightTex : Nat) (i : Nat) :
    List CSMCascadeCamera → Tr
  | [] => Tr.pure []
  | cam :: rest => (cascadeTr scene ringHeightTex i cam).seq
      (renderLoop scene ringHeightTex (i + 1) rest)

/-- `render()`: iterate all cascade cameras from index 0. -/
def ShadowMappingPass.render (cams : List CSMCascadeCamera) (scene : SceneObjects)
    (ringHeightTex : Nat) : Tr :=
  renderLoop scene ringHeightTex 0 cams

/-- Attribute description passed to `renderer.createAttribute` by
`WaterMask.updateMesh`; scalar type and format are recorded as their
enumerator names, the `Float32Array` payload as a token list. -/
structure MeshAttributeSpec where
  name : String
  attrType : String
  format : String
  size : Nat
  normalized : Bool
  data : List Nat
  deriving DecidableEq

/-- The one capability of the external `AbstractRenderer` that `WaterMask`
uses: `createMesh` with a single attribute, returning a mesh handle. -/
structure WaterRenderer where
  createMesh : MeshAttributeSpec → Nat

/-- `WaterMask`: the nullable `mesh` field and the vertices buffer stored
by the constructor. -/
structure WaterMask where
  mesh : Option Nat
  verticesBuffer : List Nat

/-- The `WaterMask` constructor: `mesh` starts `null`, `verticesBuffer`
keeps the argument. -/
def WaterMask.create (vertices : List Nat) : WaterMask :=
  ⟨none, vertices⟩

/-- `isMeshReady()`: `this.mesh !== null`. -/
def WaterMask.isMeshReady (w : WaterMask) : Bool :=
  w.mesh.isSome

/-- The attribute record built inside `updateMesh`: name `'position'`,
type `Float32`, format `Float`, size 2, not normalized, data from the
stored vertices buffer. -/
def positionAttributeSpec (data : List Nat) : MeshAttributeSpec :=
  ⟨"position", "Float32", "Float", 2, false, data⟩

/-- `updateMesh(renderer)`: creates the mesh from the stored vertices
buffer only when `mesh` is still `null`; otherwise the body is skipped. -/
def WaterMask.updateMesh (renderer : WaterRenderer) (w : WaterMask) : WaterMask :=
  match w.mesh with
  | none => ⟨some (renderer.createMesh (positionAttributeSpec w.verticesBuffer)), w.verticesBuffer⟩
  | some _ => w

/-- Materials of the dynamic categories (instanced groups and aircraft),
the ones `render()` skips for cascade indices `≥ 2`. -/
def isDynMaterial : MaterialId → Bool
  | MaterialId.tree => true
  | MaterialId.inst => true
  | MaterialId.aircraft => true
  | _ => false

/-- Events attributable to the instanced-group or aircraft categories:
their material binds, uniform writes and flushes, their draws, and the
`TypeError` only `renderInstances` can raise. -/
def isDynamicEv : Ev → Bool
  | Ev.useMaterial m => isDynMaterial m
  | Ev.writeUniform m _ _ _ => isDynMaterial m
  | Ev.updateUniformBlock m _ => isDynMaterial m
  | Ev.draw (DrawTarget.instanced _) => true
  | Ev.draw (DrawTarget.aircraft _) => true
  | Ev.typeError => true
  | _ => false

/-- Events attributable to the building or hugging-mesh categories. -/
def isStaticEv : Ev → Bool
  | Ev.useMaterial MaterialId.building => true
  | Ev.useMaterial MaterialId.hugging => true
  | Ev.writeUniform MaterialId.building _ _ _ => true
  | Ev.writeUniform MaterialId.hugging _ _ _ => true
  | Ev.updateUniformBlock MaterialId.building _ => true
  | Ev.updateUniformBlock MaterialId.hugging _ => true
  | Ev.draw (DrawTarget.extruded _) => true
  | Ev.draw (DrawTarget.hugging _) => true
  | _ => false

/-- Bind of the building depth material. -/
def isUseBuilding : Ev → Bool
  | Ev.useMaterial MaterialId.building => true
  | _ => false

/-- Write of the building material's projection matrix (`PerMaterial`). -/
def isBuildingProjWrite : Ev → Bool
  | Ev.writeUniform MaterialId.building "projectionMatrix" (some "PerMaterial") _ => true
  | _ => false

/-- Flush of the building material's `PerMaterial` block. -/
def isBuildingPerMaterialFlush : Ev → Bool
  | Ev.updateUniformBlock MaterialId.building "PerMaterial" => true
  | _ => false

/-- Bind of the hugging-mesh depth material. -/
def isUseHugging : Ev → Bool
  | Ev.useMaterial MaterialId.hugging => true
  | _ => false

/-- Write of the hugging material's projection matrix (`PerMaterial`). -/
def isHuggingProjWrite : Ev → Bool
  | Ev.writeUniform MaterialId.hugging "projectionMatrix" (some "PerMaterial") _ => true
  | _ => false

/-- Flush of the hugging material's `PerMaterial` block. -/
def isHuggingPerMaterialFlush : Ev → Bool
  | Ev.updateUniformBlock MaterialId.hugging "PerMaterial" => true
  | _ => false

/-- Write of the hugging material's `tRingHeight` texture uniform. -/
def isRingHeightWrite : Ev → Bool
  | Ev.writeUniform MaterialId.hugging "tRingHeight" none _ => true
  | _ => false

/-- Draw event of one specific target. -/
def isDraw (t : DrawTarget) : Ev → Bool
  | Ev.draw k => decide (k = t)
  | _ => false

/-- Bind of the tree or generic instance depth material. -/
def isInstanceBind : Ev → Bool
  | Ev.useMaterial MaterialId.tree => true
  | Ev.useMaterial MaterialId.inst => true
  | _ => false

/-- Write of the projection matrix of the tree or generic instance depth
material (`MainBlock`). -/
def isInstanceProjWrite : Ev → Bool
  | Ev.writeUniform MaterialId.tree "projectionMatrix" (some "MainBlock") _ => true
  | Ev.writeUniform MaterialId.inst "projectionMatrix" (some "MainBlock") _ => true
  | _ => false

/-- Bind of the aircraft depth material. -/
def isAircraftBind : Ev → Bool
  | Ev.useMaterial MaterialId.aircraft => true
  | _ => false

/-- Write of the aircraft material's projection matrix (`MainBlock`). -/
def isAircraftProjWrite : Ev → Bool
  | Ev.writeUniform MaterialId.aircraft "projectionMatrix" (some "MainBlock") _ => true
  | _ => false

/-- An aircraft the loop body actually draws: present mesh and positive
instance count. -/
def aircraftDrawable (a : Aircraft) : Bool :=
  match a.mesh with
  | some m => 0 < m.instanceCount
  | none => false

/-- Every instanced-object registry entry has a present mesh handle; under
this assumption `renderInstances` cannot raise a `TypeError`. -/
def InstancesOk (objs : List (String × InstancedObject)) : Prop :=
  ∀ e ∈ objs, (e.2).mesh.isSome = true

instance : DecidablePred InstancesOk := fun objs =>
  List.decidableBAll _ objs

/-- Concrete camera used by witnesses and counterexamples. -/
def exCam : CSMCascadeCamera := ⟨⟨0⟩, ⟨1⟩⟩

/-- Concrete second camera. -/
def exCamB : CSMCascadeCamera := ⟨⟨10⟩, ⟨11⟩⟩

/-- Concrete third camera. -/
def exCamC : CSMCascadeCamera := ⟨⟨12⟩, ⟨13⟩⟩

/-- Concrete terrain-parameter record. -/
def exTileParams : TileParams := ⟨⟨1, 2⟩, 0, 0, 0, 0, 0⟩

/-- Instanced object with a present mesh whose frustum test always fails. -/
def exObjCulled : InstancedObject := ⟨⟨2⟩, some 5, fun _ => false⟩

/-- Scene with one frustum-rejected instanced object and nothing else. -/
def exSceneCulled : SceneObjects := ⟨[], [("rock", exObjCulled)], [], fun _ => exTileParams⟩

/-- Instanced object with a present mesh, frustum test always true. -/
def exObjA : InstancedObject := ⟨⟨3⟩, some 6, fun _ => true⟩

/-- Second such instanced object. -/
def exObjB : InstancedObject := ⟨⟨4⟩, some 7, fun _ => true⟩

/-- Scene with two non-tree instanced objects and nothing else. -/
def exSceneTwoInstances : SceneObjects :=
  ⟨[], [("rock", exObjA), ("stone", exObjB)], [], fun _ => exTileParams⟩

/-- Instanced object whose mesh handle is absent. -/
def exObjNoMesh : InstancedObject := ⟨⟨5⟩, none, fun _ => true⟩

/-- Scene with one mesh-less instanced object and nothing else. -/
def exSceneNoMesh : SceneObjects := ⟨[], [("box", exObjNoMesh)], [], fun _ => exTileParams⟩

/-- Concrete tile with both meshes present and always in frustum. -/
def exTile : Tile := ⟨0, ⟨6⟩, some ⟨fun _ => true⟩, some ⟨fun _ => true⟩⟩

/-- Concrete tile whose meshes always fail the frustum test. -/
def exTileCulled : Tile := ⟨1, ⟨14⟩, some ⟨fun _ => false⟩, some ⟨fun _ => false⟩⟩

/-- Concrete aircraft with two instances. -/
def exAircraft : Aircraft := ⟨⟨7⟩, some ⟨2⟩, fun _ => true⟩

/-- Concrete aircraft with a present mesh but zero instances. -/
def exAircraftZero : Aircraft := ⟨⟨8⟩, some ⟨0⟩, fun _ => true⟩

/-- Populated scene: one tile, one tree-named instanced object, one
drawable aircraft. -/
def exSceneFull : SceneObjects :=
  ⟨[exTile], [("tree", exObjA)], [exAircraft], fun _ => exTileParams⟩

/-- Concrete tile with neither an extruded nor a hugging mesh. -/
def exTileEmpty : Tile := ⟨2, ⟨15⟩, none, none⟩

/-- Concrete aircraft whose mesh handle is absent. -/
def exAircraftNoMesh : Aircraft := ⟨⟨9⟩, none, fun _ => true⟩

/-- Bind of the tree depth material. -/
def isUseTree : Ev → Bool
  | Ev.useMaterial MaterialId.tree => true
  | _ => false

/-- Bind of the generic instance depth material. -/
def isUseInst : Ev → Bool
  | Ev.useMaterial MaterialId.inst => true
  | _ => false

/-- Concrete renderer for `WaterMask` witnesses: the mesh handle returned
by `createMesh` is the attribute's data length. -/
def exWaterRenderer : WaterRenderer := ⟨fun s => s.data.length⟩

/-- C1: the `'shadows'` handler maps `'low'` to `(1, 2048, 3000)`,
`'medium'` to `(3, 2048, 4000)`, `'high'` to `(3, 4096, 5000)`, and every
value that is neither `'low'` nor `'medium'` falls through to the
high-tier configuration `(3, 4096, 5000)`. -/
theorem shadows_tier_fixed_mapping :
    shadowsSettingConfig "low" = ⟨1, 2048, 3000⟩ ∧
    shadowsSettingConfig "medium" = ⟨3, 2048, 4000⟩ ∧
    shadowsSettingConfig "high" = ⟨3, 4096, 5000⟩ ∧
    ∀ statusValue : String, statusValue ≠ "low" → statusValue ≠ "medium" →
      shadowsSettingConfig statusValue = ⟨3, 4096, 5000⟩ := by
  refine ⟨rfl, rfl, rfl, ?_⟩
  intro s h1 h2
  simp only [shadowsSettingConfig, if_neg h1, if_neg h2]

/-- Witness for C1 at the unrecognized tier value `"ultra"`. -/
theorem shadows_tier_fixed_mapping_witness :
    shadowsSettingConfig "ultra" = ⟨3, 4096, 5000⟩ :=
  shadows_tier_fixed_mapping.2.2.2 "ultra" (by decide) (by decide)

/-- C2: every application of a tier (the initial immediate fire included)
calls `updateCascades` strictly before the descriptor is re-described;
afterwards the descriptor has `width = height = resolution` and
`depth = cascades` of the active config, the camera list length equals the
cascade count, and re-applying the same tier reproduces an identical
config, descriptor and trace. -/
theorem apply_tier_rebuild_then_redescribe :
    ∀ (statusValue : String) (st : PassState),
      (applyShadowsSetting statusValue st).2 =
        [SettingsEv.updateCascades,
         SettingsEv.setDescriptorSize (shadowsSettingConfig statusValue).resolution
           (shadowsSettingConfig statusValue).resolution
           (shadowsSettingConfig statusValue).cascades] ∧
      (applyShadowsSetting statusValue st).1.csm.config = shadowsSettingConfig statusValue ∧
      (applyShadowsSetting statusValue st).1.shadowMapsDescriptor.width =
        (applyShadowsSetting statusValue st).1.csm.config.resolution ∧
      (applyShadowsSetting statusValue st).1.shadowMapsDescriptor.height =
        (applyShadowsSetting statusValue st).1.csm.config.resolution ∧
      (applyShadowsSetting statusValue st).1.shadowMapsDescriptor.depth =
        (applyShadowsSetting statusValue st).1.csm.config.cascades ∧
      (applyShadowsSetting statusValue st).1.csm.cascadeCameras.length =
        (applyShadowsSetting statusValue st).1.csm.config.cascades ∧
      applyShadowsSetting statusValue ((applyShadowsSetting statusValue st).1) =
        applyShadowsSetting statusValue st := by
  intro s st
  refine ⟨rfl, rfl, rfl, rfl, rfl, ?_, rfl⟩
  simp [applyShadowsSetting, updateShadowMapDescriptor, CSMState.updateCascades,
    buildCascadeCameras]

/-- C9: `setSize` is a no-op for every input pair — the whole pass state,
and in particular the `ShadowMaps` descriptor's width, height and depth,
are unchanged. -/
theorem setSize_noop :
    ∀ (width height : Nat) (st : PassState),
      ShadowMappingPass.setSize width height st = st ∧
      (ShadowMappingPass.setSize width height st).shadowMapsDescriptor =
        st.shadowMapsDescriptor := by
  intro w h st
  exact ⟨rfl, rfl⟩

theorem Tr.seq_events_of_ok (a b : Tr) (h : a.ok = true) :
    (a.seq b).events = a.events ++ b.events := by
  simp [Tr.seq, h]

theorem Tr.seq_ok_of_ok (a b : Tr) (h : a.ok = true) : (a.seq b).ok = b.ok := by
  simp [Tr.seq, h]

theorem Tr.pure_seq (l : List Ev) (b : Tr) :
    (Tr.pure l).seq b = ⟨l ++ b.events, b.ok⟩ := by
  simp [Tr.pure, Tr.seq]

theorem tileBuildingEvents_filter (cam : CSMCascadeCamera) (tile : Tile) :
    (tileBuildingEvents cam tile).filter isStaticEv = tileBuildingEvents cam tile ∧
    (tileBuildingEvents cam tile).filter isDynamicEv = [] := by
  unfold tileBuildingEvents
  cases tile.extrudedMesh with
  | none => exact ⟨rfl, rfl⟩
  | some m =>
    by_cases h : m.inCameraFrustum cam <;> simp [h, isStaticEv, isDynamicEv, isDynMaterial]

theorem buildingsLoop_filter (cam : CSMCascadeCamera) (tiles : List Tile) :
    (buildingsLoop cam tiles).filter isStaticEv = buildingsLoop cam tiles ∧
    (buildingsLoop cam tiles).filter isDynamicEv = [] := by
  induction tiles with
  | nil => exact ⟨rfl, rfl⟩
  | cons t rest ih =>
    refine ⟨?_, ?_⟩ <;>
      simp [buildingsLoop, List.filter_append, ih.1, ih.2,
        (tileBuildingEvents_filter cam t).1, (tileBuildingEvents_filter cam t).2]

theorem renderBuildings_filter (cam : CSMCascadeCamera) (tiles : List Tile) :
    (renderBuildings cam tiles).filter isStaticEv = renderBuildings cam tiles ∧
    (renderBuildings cam tiles).filter isDynamicEv = [] := by
  refine ⟨?_, ?_⟩ <;>
    simp only [renderBuildings, List.filter_append, (buildingsLoop_filter cam tiles).1,
      (buildingsLoop_filter cam tiles).2, List.append_nil] <;> rfl

theorem tileHuggingEvents_filter (cam : CSMCascadeCamera) (params : Tile → TileParams)
    (tile : Tile) :
    (tileHuggingEvents cam params tile).filter isStaticEv = tileHuggingEvents cam params tile ∧
    (tileHuggingEvents cam params tile).filter isDynamicEv = [] := by
  unfold tileHuggingEvents
  cases tile.huggingMesh with
  | none => exact ⟨rfl, rfl⟩
  | some m =>
    by_cases h : m.inCameraFrustum cam <;> simp [h, isStaticEv, isDynamicEv, isDynMaterial]

theorem huggingLoop_filter (cam : CSMCascadeCamera) (params : Tile → TileParams)
    (tiles : List Tile) :
    (huggingLoop cam params tiles).filter isStaticEv = huggingLoop cam params tiles ∧
    (huggingLoop cam params tiles).filter isDynamicEv = [] := by
  induction tiles with
  | nil => exact ⟨rfl, rfl⟩
  | cons t rest ih =>
    refine ⟨?_, ?_⟩ <;>
      simp [huggingLoop, List.filter_append, ih.1, ih.2,
        (tileHuggingEvents_filter cam params t).1, (tileHuggingEvents_filter cam params t).2]

theorem renderHuggingMeshes_filter (cam : CSMCascadeCamera) (params : Tile → TileParams)
    (ringHeightTex : Nat) (tiles : List Tile) :
    (renderHuggingMeshes cam params ringHeightTex tiles).filter isStaticEv =
      renderHuggingMeshes cam params ringHeightTex tiles ∧
    (renderHuggingMeshes cam params ringHeightTex tiles).filter isDynamicEv = [] := by
  refine ⟨?_, ?_⟩ <;>
    simp only [renderHuggingMeshes, List.filter_append,
      (huggingLoop_filter cam params tiles).1, (huggingLoop_filter cam params tiles).2,
      List.append_nil] <;> rfl

theorem instanceEntryTr_filter (cam : CSMCascadeCamera) (name : String)
    (obj : InstancedObject) :
    (instanceEntryTr cam name obj).events.filter isDynamicEv =
      (instanceEntryTr cam name obj).events ∧
    (instanceEntryTr cam name obj).events.filter isStaticEv = [] := by
  unfold instanceEntryTr
  by_cases hn : name = "tree" <;> cases obj.mesh <;>
    simp [hn, isStaticEv, isDynamicEv, isDynMaterial]

theorem instancesLoop_filter (cam : CSMCascadeCamera)
    (objs : List (String × InstancedObject)) :
    (instancesLoop cam objs).events.filter isDynamicEv = (instancesLoop cam objs).events ∧
    (instancesLoop cam objs).events.filter isStaticEv = [] := by
  induction objs with
  | nil => exact ⟨rfl, rfl⟩
  | cons e rest ih =>
    by_cases h : (instanceEntryTr cam e.1 e.2).ok <;>
      refine ⟨?_, ?_⟩ <;>
        simp [instancesLoop, Tr.seq, h, List.filter_append, ih.1, ih.2,
          (instanceEntryTr_filter cam e.1 e.2).1, (instanceEntryTr_filter cam e.1 e.2).2]

theorem aircraftItemEvents_filter (cam : CSMCascadeCamera) (i : Nat) (a : Aircraft) :
    (aircraftItemEvents cam i a).filter isDynamicEv = aircraftItemEvents cam i a ∧
    (aircraftItemEvents cam i a).filter isStaticEv = [] := by
  unfold aircraftItemEvents
  cases a.mesh with
  | none => exact ⟨rfl, rfl⟩
  | some m =>
    by_cases h : m.instanceCount > 0 <;> simp [h, isStaticEv, isDynamicEv, isDynMaterial]

theorem aircraftLoop_filter (cam : CSMCascadeCamera) (i : Nat) (l : List Aircraft) :
    (aircraftLoop cam i l).filter isDynamicEv = aircraftLoop cam i l ∧
    (aircraftLoop cam i l).filter isStaticEv = [] := by
  induction l generalizing i with
  | nil => exact ⟨rfl, rfl⟩
  | cons a rest ih =>
    refine ⟨?_, ?_⟩ <;>
      simp [aircraftLoop, List.filter_append, (ih (i + 1)).1, (ih (i + 1)).2,
        (aircraftItemEvents_filter cam i a).1, (aircraftItemEvents_filter cam i a).2]

theorem instanceEntryTr_ok (cam : CSMCascadeCamera) (name : String) (obj : InstancedObject)
    (h : obj.mesh.isSome = true) : (instanceEntryTr cam name obj).ok = true := by
  unfold instanceEntryTr
  cases hm : obj.mesh with
  | none => rw [hm] at h; simp at h
  | some k => simp

theorem instancesLoop_ok (cam : CSMCascadeCamera) (objs : List (String × InstancedObject))
    (h : InstancesOk objs) : (instancesLoop cam objs).ok = true := by
  induction objs with
  | nil => rfl
  | cons e rest ih =>
    have he : (instanceEntryTr cam e.1 e.2).ok = true :=
      instanceEntryTr_ok cam e.1 e.2 (h e (List.mem_cons_self e rest))
    have hr : (instancesLoop cam rest).ok = true :=
      ih (fun x hx => h x (List.mem_cons_of_mem e hx))
    simp [instancesLoop, Tr.seq, he, hr]

theorem cascadeTr_ok (scene : SceneObjects) (ringHeightTex i : Nat) (cam : CSMCascadeCamera)
    (hOk : InstancesOk scene.instancedObjects) :
    (cascadeTr scene ringHeightTex i cam).ok = true := by
  have hI := instancesLoop_ok cam scene.instancedObjects hOk
  by_cases hi : i < 2 <;>
    simp [cascadeTr, hi, Tr.seq, Tr.pure, renderInstances, hI]

theorem cascadeTr_events (scene : SceneObjects) (ringHeightTex i : Nat)
    (cam : CSMCascadeCamera) (hOk : InstancesOk scene.instancedObjects) :
    (cascadeTr scene ringHeightTex i cam).events =
      Ev.beginRenderPass i ::
        ((if i < 2 then
            (renderInstances cam scene.instancedObjects).events ++
              renderAircraft cam scene.instancedAircraft
          else []) ++
          (renderBuildings cam scene.tiles ++
            renderHuggingMeshes cam scene.getTileParams ringHeightTex scene.tiles)) := by
  have hI := instancesLoop_ok cam scene.instancedObjects hOk
  by_cases hi : i < 2 <;>
    simp [cascadeTr, hi, Tr.seq, Tr.pure, renderInstances, hI]

theorem cascadeTr_filter_dyn (scene : SceneObjects) (ringHeightTex i : Nat)
    (cam : CSMCascadeCamera) (hOk : InstancesOk scene.instancedObjects) :
    (cascadeTr scene ringHeightTex i cam).events.filter isDynamicEv =
      (if i < 2 then
        (renderInstances cam scene.instancedObjects).events ++
          renderAircraft cam scene.instancedAircraft
      else []) := by
  rw [cascadeTr_events scene ringHeightTex i cam hOk]
  by_cases hi : i < 2 <;>
    simp [hi, List.filter_append, isDynamicEv, renderInstances, renderAircraft,
      (instancesLoop_filter cam scene.instancedObjects).1,
      (aircraftLoop_filter cam 0 scene.instancedAircraft).1,
      (renderBuildings_filter cam scene.tiles).2,
      (renderHuggingMeshes_filter cam scene.getTileParams ringHeightTex scene.tiles).2]

theorem cascadeTr_filter_static (scene : SceneObjects) (ringHeightTex i : Nat)
    (cam : CSMCascadeCamera) (hOk : InstancesOk scene.instancedObjects) :
    (cascadeTr scene ringHeightTex i cam).events.filter isStaticEv =
      renderBuildings cam scene.tiles ++
        renderHuggingMeshes cam scene.getTileParams ringHeightTex scene.tiles := by
  rw [cascadeTr_events scene ringHeightTex i cam hOk]
  by_cases hi : i < 2 <;>
    simp [hi, List.filter_append, isStaticEv, renderInstances, renderAircraft,
      (instancesLoop_filter cam scene.instancedObjects).2,
      (aircraftLoop_filter cam 0 scene.instancedAircraft).2,
      (renderBuildings_filter cam scene.tiles).1,
      (renderHuggingMeshes_filter cam scene.getTileParams ringHeightTex scene.tiles).1]

theorem render_three_cascades_dyn (scene : SceneObjects) (ringHeightTex : Nat)
    (c0 c1 c2 : CSMCascadeCamera) (hOk : InstancesOk scene.instancedObjects) :
    (ShadowMappingPass.render [c0, c1, c2] scene ringHeightTex).events.filter isDynamicEv =
      ((renderInstances c0 scene.instancedObjects).events ++
        renderAircraft c0 scene.instancedAircraft) ++
      ((renderInstances c1 scene.instancedObjects).events ++
        renderAircraft c1 scene.instancedAircraft) := by
  have h0 := cascadeTr_ok scene ringHeightTex 0 c0 hOk
  have h1 := cascadeTr_ok scene ringHeightTex 1 c1 hOk
  have h2 := cascadeTr_ok scene ringHeightTex 2 c2 hOk
  have f0 := cascadeTr_filter_dyn scene ringHeightTex 0 c0 hOk
  have f1 := cascadeTr_filter_dyn scene ringHeightTex 1 c1 hOk
  have f2 := cascadeTr_filter_dyn scene ringHeightTex 2 c2 hOk
  simp only [show (0 : Nat) < 2 by decide, if_true, show ¬(2 : Nat) < 2 by decide,
    if_false, show (1 : Nat) < 2 by decide] at f0 f1 f2
  simp [ShadowMappingPass.render, renderLoop, Tr.seq, Tr.pure, h0, h1, h2,
    List.filter_append, f0, f1, f2]

/-- C3: during `render()`, events of the instanced-group and aircraft
categories appear in cascade `i` exactly when `i < 2` — a fixed threshold:
their part of cascade `i`'s trace is everything their category renderers
emit when `i < 2` and empty otherwise — while the building and
hugging-mesh categories contribute their full renderer output to every
cascade.  In particular with three cascades the whole frame's
instanced/aircraft events come from cascades 0 and 1 only. -/
theorem cascade_category_inclusion :
    (∀ (scene : SceneObjects) (ringHeightTex i : Nat) (cam : CSMCascadeCamera),
      InstancesOk scene.instancedObjects →
      (cascadeTr scene ringHeightTex i cam).events.filter isDynamicEv =
        (if i < 2 then
          (renderInstances cam scene.instancedObjects).events ++
            renderAircraft cam scene.instancedAircraft
        else [])) ∧
    (∀ (scene : SceneObjects) (ringHeightTex i : Nat) (cam : CSMCascadeCamera),
      InstancesOk scene.instancedObjects →
      (cascadeTr scene ringHeightTex i cam).events.filter isStaticEv =
        renderBuildings cam scene.tiles ++
          renderHuggingMeshes cam scene.getTileParams ringHeightTex scene.tiles) ∧
    (∀ (scene : SceneObjects) (ringHeightTex : Nat) (c0 c1 c2 : CSMCascadeCamera),
      InstancesOk scene.instancedObjects →
      (ShadowMappingPass.render [c0, c1, c2] scene ringHeightTex).events.filter isDynamicEv =
        ((renderInstances c0 scene.instancedObjects).events ++
          renderAircraft c0 scene.instancedAircraft) ++
        ((renderInstances c1 scene.instancedObjects).events ++
          renderAircraft c1 scene.instancedAircraft)) :=
  ⟨cascadeTr_filter_dyn, cascadeTr_filter_static, render_three_cascades_dyn⟩

/-- Witness for C3 on a populated scene: cascade index 2 contributes no
instanced/aircraft events, and a three-cascade frame's instanced/aircraft
events come from cascades 0 and 1. -/
theorem cascade_category_inclusion_witness :
    ((cascadeTr exSceneFull 0 2 exCamC).events.filter isDynamicEv =
      (if 2 < 2 then
        (renderInstances exCamC exSceneFull.instancedObjects).events ++
          renderAircraft exCamC exSceneFull.instancedAircraft
      else [])) ∧
    (ShadowMappingPass.render [exCam, exCamB, exCamC] exSceneFull 0).events.filter
        isDynamicEv =
      ((renderInstances exCam exSceneFull.instancedObjects).events ++
        renderAircraft exCam exSceneFull.instancedAircraft) ++
      ((renderInstances exCamB exSceneFull.instancedObjects).events ++
        renderAircraft exCamB exSceneFull.instancedAircraft) :=
  ⟨cascade_category_inclusion.1 exSceneFull 0 2 exCamC (by decide),
   cascade_category_inclusion.2.2 exSceneFull 0 exCam exCamB exCamC (by decide)⟩

theorem tileBuildingEvents_count_self (cam : CSMCascadeCamera) (tile : Tile) (m : TileMesh)
    (hm : tile.extrudedMesh = some m) :
    (tileBuildingEvents cam tile).countP (isDraw (DrawTarget.extruded tile.id)) =
      if m.inCameraFrustum cam then 1 else 0 := by
  unfold tileBuildingEvents
  rw [hm]
  by_cases h : m.inCameraFrustum cam <;> simp [h, isDraw]

theorem tileBuildingEvents_count_other (cam : CSMCascadeCamera) (tile : Tile) (tid : Nat)
    (hne : tile.id ≠ tid) :
    (tileBuildingEvents cam tile).countP (isDraw (DrawTarget.extruded tid)) = 0 := by
  unfold tileBuildingEvents
  cases tile.extrudedMesh with
  | none => rfl
  | some m =>
    by_cases h : m.inCameraFrustum cam <;> simp [h, isDraw, hne]

theorem buildingsLoop_count_zero (cam : CSMCascadeCamera) (tiles : List Tile) (tid : Nat)
    (hall : ∀ u ∈ tiles, u.id ≠ tid) :
    (buildingsLoop cam tiles).countP (isDraw (DrawTarget.extruded tid)) = 0 := by
  induction tiles with
  | nil => rfl
  | cons t rest ih =>
    rw [buildingsLoop, List.countP_append,
      tileBuildingEvents_count_other cam t tid (hall t (List.mem_cons_self t rest)),
      ih (fun u hu => hall u (List.mem_cons_of_mem t hu))]

theorem buildingsLoop_drawCount (cam : CSMCascadeCamera) (tiles : List Tile) (tile : Tile)
    (m : TileMesh) (hnd : (tiles.map Tile.id).Nodup) (ht : tile ∈ tiles)
    (hm : tile.extrudedMesh = some m) :
    (buildingsLoop cam tiles).countP (isDraw (DrawTarget.extruded tile.id)) =
      if m.inCameraFrustum cam then 1 else 0 := by
  induction tiles with
  | nil => cases ht
  | cons t rest ih =>
    rw [List.map_cons, List.nodup_cons] at hnd
    rw [buildingsLoop, List.countP_append]
    rcases List.mem_cons.mp ht with h | h
    · subst h
      have hrest : ∀ u ∈ rest, u.id ≠ tile.id := by
        intro u hu heq
        exact hnd.1 (heq ▸ List.mem_map_of_mem Tile.id hu)
      rw [tileBuildingEvents_count_self cam tile m hm,
        buildingsLoop_count_zero cam rest tile.id hrest, Nat.add_zero]
    · have hne : t.id ≠ tile.id := by
        intro heq
        exact hnd.1 (heq ▸ List.mem_map_of_mem Tile.id h)
      rw [tileBuildingEvents_count_other cam t tile.id hne, ih hnd.2 h, Nat.zero_add]

theorem renderBuildings_drawCount (cam : CSMCascadeCamera) (tiles : List Tile) (tile : Tile)
    (m : TileMesh) (hnd : (tiles.map Tile.id).Nodup) (ht : tile ∈ tiles)
    (hm : tile.extrudedMesh = some m) :
    (renderBuildings cam tiles).countP (isDraw (DrawTarget.extruded tile.id)) =
      if m.inCameraFrustum cam then 1 else 0 := by
  have hh : (buildingsHeader cam).countP (isDraw (DrawTarget.extruded tile.id)) = 0 := by
    simp [buildingsHeader, isDraw]
  rw [renderBuildings, List.countP_append, buildingsLoop_drawCount cam tiles tile m hnd ht hm,
    hh, Nat.zero_add]

theorem tileHuggingEvents_count_self (cam : CSMCascadeCamera) (params : Tile → TileParams)
    (tile : Tile) (m : TileMesh) (hm : tile.huggingMesh = some m) :
    (tileHuggingEvents cam params tile).countP (isDraw (DrawTarget.hugging tile.id)) =
      if m.inCameraFrustum cam then 1 else 0 := by
  unfold tileHuggingEvents
  rw [hm]
  by_cases h : m.inCameraFrustum cam <;> simp [h, isDraw]

theorem tileHuggingEvents_count_other (cam : CSMCascadeCamera) (params : Tile → TileParams)
    (tile : Tile) (tid : Nat) (hne : tile.id ≠ tid) :
    (tileHuggingEvents cam params tile).countP (isDraw (DrawTarget.hugging tid)) = 0 := by
  unfold tileHuggingEvents
  cases tile.huggingMesh with
  | none => rfl
  | some m =>
    by_cases h : m.inCameraFrustum cam <;> simp [h, isDraw, hne]

theorem huggingLoop_count_zero (cam : CSMCascadeCamera) (params : Tile → TileParams)
    (tiles : List Tile) (tid : Nat) (hall : ∀ u ∈ tiles, u.id ≠ tid) :
    (huggingLoop cam params tiles).countP (isDraw (DrawTarget.hugging tid)) = 0 := by
  induction tiles with
  | nil => rfl
  | cons t rest ih =>
    rw [huggingLoop, List.countP_append,
      tileHuggingEvents_count_other cam params t tid (hall t (List.mem_cons_self t rest)),
      ih (fun u hu => hall u (List.mem_cons_of_mem t hu))]

theorem huggingLoop_drawCount (cam : CSMCascadeCamera) (params : Tile → TileParams)
    (tiles : List Tile) (tile : Tile) (m : TileMesh) (hnd : (tiles.map Tile.id).Nodup)
    (ht : tile ∈ tiles) (hm : tile.huggingMesh = some m) :
    (huggingLoop cam params tiles).countP (isDraw (DrawTarget.hugging tile.id)) =
      if m.inCameraFrustum cam then 1 else 0 := by
  induction tiles with
  | nil => cases ht
  | cons t rest ih =>
    rw [List.map_cons, List.nodup_cons] at hnd
    rw [huggingLoop, List.countP_append]
    rcases List.mem_cons.mp ht with h | h
    · subst h
      have hrest : ∀ u ∈ rest, u.id ≠ tile.id := by
        intro u hu heq
        exact hnd.1 (heq ▸ List.mem_map_of_mem Tile.id hu)
      rw [tileHuggingEvents_count_self cam params tile m hm,
        huggingLoop_count_zero cam params rest tile.id hrest, Nat.add_zero]
    · have hne : t.id ≠ tile.id := by
        intro heq
        exact hnd.1 (heq ▸ List.mem_map_of_mem Tile.id h)
      rw [tileHuggingEvents_count_other cam params t tile.id hne, ih hnd.2 h, Nat.zero_add]

theorem renderHuggingMeshes_drawCount (cam : CSMCascadeCamera) (params : Tile → TileParams)
    (ringHeightTex : Nat) (tiles : List Tile) (tile : Tile) (m : TileMesh)
    (hnd : (tiles.map Tile.id).Nodup) (ht : tile ∈ tiles) (hm : tile.huggingMesh = some m) :
    (renderHuggingMeshes cam params ringHeightTex tiles).countP
        (isDraw (DrawTarget.hugging tile.id)) =
      if m.inCameraFrustum cam then 1 else 0 := by
  have hh : (huggingHeader cam ringHeightTex).countP (isDraw (DrawTarget.hugging tile.id)) =
      0 := by
    simp [huggingHeader, isDraw]
  rw [renderHuggingMeshes, List.countP_append,
    huggingLoop_drawCount cam params tiles tile m hnd ht hm, hh, Nat.zero_add]

theorem instancesLoop_draw_mem (cam : CSMCascadeCamera)
    (objs : List (String × InstancedObject)) (name : String) (obj : InstancedObject)
    (hmem : (name, obj) ∈ objs) (hOk : InstancesOk objs) :
    Ev.draw (DrawTarget.instanced name) ∈ (instancesLoop cam objs).events := by
  induction objs with
  | nil => cases hmem
  | cons e rest ih =>
    have he : (instanceEntryTr cam e.1 e.2).ok = true :=
      instanceEntryTr_ok cam e.1 e.2 (hOk e (List.mem_cons_self e rest))
    rw [instancesLoop, Tr.seq_events_of_ok _ _ he]
    rcases List.mem_cons.mp hmem with h | h
    · subst h
      apply List.mem_append_left
      have hs : obj.mesh.isSome = true := hOk (name, obj) (List.mem_cons_self _ rest)
      cases hk : obj.mesh with
      | none => rw [hk] at hs; simp at hs
      | some k => simp [instanceEntryTr, hk]
    · exact List.mem_append_right _ (ih h (fun x hx => hOk x (List.mem_cons_of_mem e hx)))

theorem aircraftLoop_draw_mem (cam : CSMCascadeCamera) (l : List Aircraft) :
    ∀ (i j : Nat) (hj : j < l.length) (m : AircraftMesh),
      (l.get ⟨j, hj⟩).mesh = some m → 0 < m.instanceCount →
      Ev.draw (DrawTarget.aircraft (i + j)) ∈ aircraftLoop cam i l := by
  induction l with
  | nil => intro i j hj; cases hj
  | cons a rest ih =>
    intro i j hj m hm hc
    rw [aircraftLoop]
    cases j with
    | zero =>
      apply List.mem_append_left
      simp only [List.get] at hm
      simp [aircraftItemEvents, hm, hc]
    | succ jj =>
      have : i + (jj + 1) = (i + 1) + jj := by omega
      rw [this]
      exact List.mem_append_right _
        (ih (i + 1) jj (Nat.lt_of_succ_lt_succ hj) m hm hc)

/-- Counterexample to C4 as stated: an instanced object whose frustum test
rejects the cascade camera is still drawn — `renderInstances` never calls
the frustum test. -/
theorem frustum_test_not_consulted_for_instances :
    exObjCulled.inCameraFrustum exCam = false ∧
    Ev.draw (DrawTarget.instanced "rock") ∈
      (ShadowMappingPass.render [exCam] exSceneCulled 0).events := by
  decide

/-- C4 amended: frustum culling is applied only in the building and
hugging-mesh categories — there a tile whose mesh fails `inCameraFrustum`
for the cascade camera gets no draw in that cascade and a tile whose mesh
passes gets exactly one (so the same tile may be drawn in another cascade
whose camera its mesh intersects).  The instanced-group and aircraft
categories are not frustum-culled: every registry entry, and every
aircraft with a present mesh and positive instance count, is drawn
regardless of any frustum test. -/
theorem frustum_culling_amended :
    (∀ (cam : CSMCascadeCamera) (tiles : List Tile) (tile : Tile) (m : TileMesh),
      (tiles.map Tile.id).Nodup → tile ∈ tiles → tile.extrudedMesh = some m →
      (renderBuildings cam tiles).countP (isDraw (DrawTarget.extruded tile.id)) =
        if m.inCameraFrustum cam then 1 else 0) ∧
    (∀ (cam : CSMCascadeCamera) (params : Tile → TileParams) (ringHeightTex : Nat)
        (tiles : List Tile) (tile : Tile) (m : TileMesh),
      (tiles.map Tile.id).Nodup → tile ∈ tiles → tile.huggingMesh = some m →
      (renderHuggingMeshes cam params ringHeightTex tiles).countP
          (isDraw (DrawTarget.hugging tile.id)) =
        if m.inCameraFrustum cam then 1 else 0) ∧
    (∀ (cam : CSMCascadeCamera) (objs : List (String × InstancedObject)) (name : String)
        (obj : InstancedObject),
      (name, obj) ∈ objs → InstancesOk objs →
      Ev.draw (DrawTarget.instanced name) ∈ (renderInstances cam objs).events) ∧
    (∀ (cam : CSMCascadeCamera) (l : List Aircraft) (j : Nat) (hj : j < l.length)
        (m : AircraftMesh),
      (l.get ⟨j, hj⟩).mesh = some m → 0 < m.instanceCount →
      Ev.draw (DrawTarget.aircraft j) ∈ renderAircraft cam l) := by
  refine ⟨?_, ?_, ?_, ?_⟩
  · intro cam tiles tile m hnd ht hm
    exact renderBuildings_drawCount cam tiles tile m hnd ht hm
  · intro cam params tex tiles tile m hnd ht hm
    exact renderHuggingMeshes_drawCount cam params tex tiles tile m hnd ht hm
  · intro cam objs name obj hmem hOk
    exact instancesLoop_draw_mem cam objs name obj hmem hOk
  · intro cam l j hj m hm hc
    have := aircraftLoop_draw_mem cam l 0 j hj m hm hc
    rwa [Nat.zero_add] at this

/-- Witness for C4 amended: the frustum-rejected tile of a two-tile scene
gets zero building draws, a frustum-rejected instanced object is drawn
anyway, and the drawable aircraft at index 0 is drawn. -/
theorem frustum_culling_amended_witness :
    ((renderBuildings exCam [exTileCulled, exTile]).countP
        (isDraw (DrawTarget.extruded exTileCulled.id)) =
      if (⟨fun _ => false⟩ : TileMesh).inCameraFrustum exCam then 1 else 0) ∧
    Ev.draw (DrawTarget.instanced "rock") ∈
      (renderInstances exCam [("rock", exObjCulled)]).events ∧
    Ev.draw (DrawTarget.aircraft 0) ∈ renderAircraft exCam [exAircraft] :=
  ⟨frustum_culling_amended.1 exCam [exTileCulled, exTile] exTileCulled ⟨fun _ => false⟩
      (by decide) (List.mem_cons_self _ _) rfl,
   frustum_culling_amended.2.2.1 exCam [("rock", exObjCulled)] "rock" exObjCulled
      (List.mem_cons_self _ _) (by decide),
   frustum_culling_amended.2.2.2 exCam [exAircraft] 0 (by decide) ⟨2⟩ rfl (by decide)⟩

theorem buildingsLoop_headerCounts (cam : CSMCascadeCamera) (tiles : List Tile) :
    (buildingsLoop cam tiles).countP isUseBuilding = 0 ∧
    (buildingsLoop cam tiles).countP isBuildingProjWrite = 0 ∧
    (buildingsLoop cam tiles).countP isBuildingPerMaterialFlush = 0 := by
  induction tiles with
  | nil => exact ⟨rfl, rfl, rfl⟩
  | cons t rest ih =>
    have ht : (tileBuildingEvents cam t).countP isUseBuilding = 0 ∧
        (tileBuildingEvents cam t).countP isBuildingProjWrite = 0 ∧
        (tileBuildingEvents cam t).countP isBuildingPerMaterialFlush = 0 := by
      unfold tileBuildingEvents
      cases t.extrudedMesh with
      | none => exact ⟨rfl, rfl, rfl⟩
      | some m =>
        by_cases h : m.inCameraFrustum cam <;>
          simp [h, isUseBuilding, isBuildingProjWrite, isBuildingPerMaterialFlush]
    refine ⟨?_, ?_, ?_⟩ <;>
      simp [buildingsLoop, List.countP_append, ih.1, ih.2.1, ih.2.2, ht.1, ht.2.1, ht.2.2]

theorem renderBuildings_header_once (cam : CSMCascadeCamera) (tiles : List Tile) :
    (renderBuildings cam tiles).countP isUseBuilding = 1 ∧
    (renderBuildings cam tiles).countP isBuildingProjWrite = 1 ∧
    (renderBuildings cam tiles).countP isBuildingPerMaterialFlush = 1 ∧
    (renderBuildings cam tiles).take 3 = buildingsHeader cam := by
  have hl := buildingsLoop_headerCounts cam tiles
  refine ⟨?_, ?_, ?_, rfl⟩ <;>
    simp [renderBuildings, List.countP_append, hl.1, hl.2.1, hl.2.2, buildingsHeader,
      isUseBuilding, isBuildingProjWrite, isBuildingPerMaterialFlush]

theorem huggingLoop_headerCounts (cam : CSMCascadeCamera) (params : Tile → TileParams)
    (tiles : List Tile) :
    (huggingLoop cam params tiles).countP isUseHugging = 0 ∧
    (huggingLoop cam params tiles).countP isHuggingProjWrite = 0 ∧
    (huggingLoop cam params tiles).countP isHuggingPerMaterialFlush = 0 ∧
    (huggingLoop cam params tiles).countP isRingHeightWrite = 0 := by
  induction tiles with
  | nil => exact ⟨rfl, rfl, rfl, rfl⟩
  | cons t rest ih =>
    have ht : (tileHuggingEvents cam params t).countP isUseHugging = 0 ∧
        (tileHuggingEvents cam params t).countP isHuggingProjWrite = 0 ∧
        (tileHuggingEvents cam params t).countP isHuggingPerMaterialFlush = 0 ∧
        (tileHuggingEvents cam params t).countP isRingHeightWrite = 0 := by
      unfold tileHuggingEvents
      cases t.huggingMesh with
      | none => exact ⟨rfl, rfl, rfl, rfl⟩
      | some m =>
        by_cases h : m.inCameraFrustum cam <;>
          simp [h, isUseHugging, isHuggingProjWrite, isHuggingPerMaterialFlush,
            isRingHeightWrite]
    refine ⟨?_, ?_, ?_, ?_⟩ <;>
      simp [huggingLoop, List.countP_append, ih.1, ih.2.1, ih.2.2.1, ih.2.2.2, ht.1, ht.2.1,
        ht.2.2.1, ht.2.2.2]

theorem renderHuggingMeshes_header_once (cam : CSMCascadeCamera) (params : Tile → TileParams)
    (ringHeightTex : Nat) (tiles : List Tile) :
    (renderHuggingMeshes cam params ringHeightTex tiles).countP isUseHugging = 1 ∧
    (renderHuggingMeshes cam params ringHeightTex tiles).countP isHuggingProjWrite = 1 ∧
    (renderHuggingMeshes cam params ringHeightTex tiles).countP isHuggingPerMaterialFlush = 1 ∧
    (renderHuggingMeshes cam params ringHeightTex tiles).countP isRingHeightWrite = 1 ∧
    (renderHuggingMeshes cam params ringHeightTex tiles).take 4 =
      huggingHeader cam ringHeightTex := by
  have hl := huggingLoop_headerCounts cam params tiles
  refine ⟨?_, ?_, ?_, ?_, rfl⟩ <;>
    simp [renderHuggingMeshes, List.countP_append, hl.1, hl.2.1, hl.2.2.1, hl.2.2.2,
      huggingHeader, isUseHugging, isHuggingProjWrite, isHuggingPerMaterialFlush,
      isRingHeightWrite]

theorem instanceEntryTr_bindCount (cam : CSMCascadeCamera) (name : String)
    (obj : InstancedObject) :
    (instanceEntryTr cam name obj).events.countP isInstanceBind = 1 ∧
    (instanceEntryTr cam name obj).events.countP isInstanceProjWrite = 1 := by
  unfold instanceEntryTr
  by_cases hn : name = "tree" <;> cases obj.mesh <;>
    simp [hn, isInstanceBind, isInstanceProjWrite]

theorem instancesLoop_bindCount (cam : CSMCascadeCamera)
    (objs : List (String × InstancedObject)) (hOk : InstancesOk objs) :
    (instancesLoop cam objs).events.countP isInstanceBind = objs.length ∧
    (instancesLoop cam objs).events.countP isInstanceProjWrite = objs.length := by
  induction objs with
  | nil => exact ⟨rfl, rfl⟩
  | cons e rest ih =>
    have he : (instanceEntryTr cam e.1 e.2).ok = true :=
      instanceEntryTr_ok cam e.1 e.2 (hOk e (List.mem_cons_self e rest))
    have ihr := ih (fun x hx => hOk x (List.mem_cons_of_mem e hx))
    have hb := instanceEntryTr_bindCount cam e.1 e.2
    constructor
    · rw [instancesLoop, Tr.seq_events_of_ok _ _ he, List.countP_append, hb.1, ihr.1,
        List.length_cons]
      omega
    · rw [instancesLoop, Tr.seq_events_of_ok _ _ he, List.countP_append, hb.2, ihr.2,
        List.length_cons]
      omega

theorem aircraftItemEvents_bindCount (cam : CSMCascadeCamera) (i : Nat) (a : Aircraft) :
    (aircraftItemEvents cam i a).countP isAircraftBind =
      (if aircraftDrawable a then 1 else 0) ∧
    (aircraftItemEvents cam i a).countP isAircraftProjWrite =
      (if aircraftDrawable a then 1 else 0) := by
  unfold aircraftItemEvents aircraftDrawable
  cases a.mesh with
  | none => exact ⟨rfl, rfl⟩
  | some m =>
    by_cases h : 0 < m.instanceCount <;>
      simp [h, isAircraftBind, isAircraftProjWrite]

theorem aircraftLoop_bindCount (cam : CSMCascadeCamera) (l : List Aircraft) :
    ∀ i : Nat,
      (aircraftLoop cam i l).countP isAircraftBind = l.countP aircraftDrawable ∧
      (aircraftLoop cam i l).countP isAircraftProjWrite = l.countP aircraftDrawable := by
  induction l with
  | nil => intro i; exact ⟨rfl, rfl⟩
  | cons a rest ih =>
    intro i
    have hitem := aircraftItemEvents_bindCount cam i a
    have ihr := ih (i + 1)
    constructor
    · rw [aircraftLoop, List.countP_append, hitem.1, ihr.1, List.countP_cons]
      by_cases h : aircraftDrawable a <;> simp [h]
      omega
    · rw [aircraftLoop, List.countP_append, hitem.2, ihr.2, List.countP_cons]
      by_cases h : aircraftDrawable a <;> simp [h]
      omega

/-- Counterexample to C5 as stated: in a cascade with two (non-tree)
instanced objects, the generic instance depth material is bound twice and
its projection matrix written twice — once per item inside the loop, not
exactly once per cascade. -/
theorem instance_material_bound_per_item :
    (ShadowMappingPass.render [exCam] exSceneTwoInstances 0).events.countP isInstanceBind =
      2 ∧
    (ShadowMappingPass.render [exCam] exSceneTwoInstances 0).events.countP
        isInstanceProjWrite = 2 ∧
    (ShadowMappingPass.render [exCam] exSceneTwoInstances 0).events.countP isInstanceBind ≠
      1 := by
  decide

/-- C5 amended: the once-per-cascade binding discipline holds for the
building and hugging-mesh categories only — their material is bound once,
the cascade's projection matrix is written once into `PerMaterial` and that
block flushed once (for hugging meshes the terrain ring-height texture is
also written once, before the bind), all in the fixed header that precedes
the per-item loop.  In the instanced-group and aircraft categories the
material bind and the projection-matrix write instead happen once per
iterated item (for aircraft, once per item with a present mesh and positive
instance count), inside the loop. -/
theorem per_cascade_uniform_discipline_amended :
    (∀ (cam : CSMCascadeCamera) (tiles : List Tile),
      (renderBuildings cam tiles).countP isUseBuilding = 1 ∧
      (renderBuildings cam tiles).countP isBuildingProjWrite = 1 ∧
      (renderBuildings cam tiles).countP isBuildingPerMaterialFlush = 1 ∧
      (renderBuildings cam tiles).take 3 = buildingsHeader cam) ∧
    (∀ (cam : CSMCascadeCamera) (params : Tile → TileParams) (ringHeightTex : Nat)
        (tiles : List Tile),
      (renderHuggingMeshes cam params ringHeightTex tiles).countP isUseHugging = 1 ∧
      (renderHuggingMeshes cam params ringHeightTex tiles).countP isHuggingProjWrite = 1 ∧
      (renderHuggingMeshes cam params ringHeightTex tiles).countP
          isHuggingPerMaterialFlush = 1 ∧
      (renderHuggingMeshes cam params ringHeightTex tiles).countP isRingHeightWrite = 1 ∧
      (renderHuggingMeshes cam params ringHeightTex tiles).take 4 =
        huggingHeader cam ringHeightTex) ∧
    (∀ (cam : CSMCascadeCamera) (objs : List (String × InstancedObject)),
      InstancesOk objs →
      (renderInstances cam objs).events.countP isInstanceBind = objs.length ∧
      (renderInstances cam objs).events.countP isInstanceProjWrite = objs.length) ∧
    (∀ (cam : CSMCascadeCamera) (l : List Aircraft),
      (renderAircraft cam l).countP isAircraftBind = l.countP aircraftDrawable ∧
      (renderAircraft cam l).countP isAircraftProjWrite = l.countP aircraftDrawable) := by
  refine ⟨renderBuildings_header_once, renderHuggingMeshes_header_once, ?_, ?_⟩
  · intro cam objs hOk
    exact instancesLoop_bindCount cam objs hOk
  · intro cam l
    exact aircraftLoop_bindCount cam l 0

/-- Witness for C5 amended: with two instanced objects the instance
material is bound twice (once per item), and the aircraft bind count
equals the number of drawable aircraft. -/
theorem per_cascade_uniform_discipline_amended_witness :
    ((renderInstances exCam [("rock", exObjA), ("stone", exObjB)]).events.countP
        isInstanceBind = [("rock", exObjA), ("stone", exObjB)].length ∧
      (renderInstances exCam [("rock", exObjA), ("stone", exObjB)]).events.countP
        isInstanceProjWrite = [("rock", exObjA), ("stone", exObjB)].length) ∧
    ((renderAircraft exCam [exAircraft, exAircraftZero]).countP isAircraftBind =
        [exAircraft, exAircraftZero].countP aircraftDrawable ∧
      (renderAircraft exCam [exAircraft, exAircraftZero]).countP isAircraftProjWrite =
        [exAircraft, exAircraftZero].countP aircraftDrawable) :=
  ⟨per_cascade_uniform_discipline_amended.2.2.1 exCam [("rock", exObjA), ("stone", exObjB)]
      (by decide),
   per_cascade_uniform_discipline_amended.2.2.2 exCam [exAircraft, exAircraftZero]⟩

theorem renderBuildings_no_typeError (cam : CSMCascadeCamera) (tiles : List Tile) :
    Ev.typeError ∉ renderBuildings cam tiles := by
  intro h
  have hm : Ev.typeError ∈ (renderBuildings cam tiles).filter isDynamicEv :=
    List.mem_filter.mpr ⟨h, rfl⟩
  rw [(renderBuildings_filter cam tiles).2] at hm
  cases hm

theorem renderHuggingMeshes_no_typeError (cam : CSMCascadeCamera) (params : Tile → TileParams)
    (ringHeightTex : Nat) (tiles : List Tile) :
    Ev.typeError ∉ renderHuggingMeshes cam params ringHeightTex tiles := by
  intro h
  have hm : Ev.typeError ∈
      (renderHuggingMeshes cam params ringHeightTex tiles).filter isDynamicEv :=
    List.mem_filter.mpr ⟨h, rfl⟩
  rw [(renderHuggingMeshes_filter cam params ringHeightTex tiles).2] at hm
  cases hm

theorem aircraftLoop_no_typeError (cam : CSMCascadeCamera) (l : List Aircraft) :
    ∀ i : Nat, Ev.typeError ∉ aircraftLoop cam i l := by
  induction l with
  | nil => intro i h; cases h
  | cons a rest ih =>
    intro i h
    rcases List.mem_append.mp h with h1 | h1
    · unfold aircraftItemEvents at h1
      rcases hm : a.mesh with _ | m
      · rw [hm] at h1; cases h1
      · rw [hm] at h1
        by_cases hc : m.instanceCount > 0 <;> simp [hc] at h1
    · exact ih (i + 1) h1

/-- Counterexample to C6 as stated: an instanced object with an absent
mesh handle is not silently skipped — `renderInstances` has no
mesh-presence guard, so the frame's render throws a `TypeError` at the
`.draw` property access. -/
theorem instanced_missing_mesh_not_skipped :
    (ShadowMappingPass.render [exCam] exSceneNoMesh 0).ok = false ∧
    Ev.typeError ∈ (ShadowMappingPass.render [exCam] exSceneNoMesh 0).events := by
  decide

/-- C6 amended: absent drawables are silently skipped in the tile
categories (no extruded mesh, no hugging mesh) and in the aircraft
category (no mesh): such an item contributes no events at all — no
uniform writes, no draw, no error — and those three render methods never
raise a `TypeError`.  An instanced object with an absent mesh is the
exception: its material bind and uniform writes still happen and then the
entry throws instead of being skipped. -/
theorem missing_drawable_skip_amended :
    (∀ (cam : CSMCascadeCamera) (tile : Tile),
      tile.extrudedMesh = none → tileBuildingEvents cam tile = []) ∧
    (∀ (cam : CSMCascadeCamera) (params : Tile → TileParams) (tile : Tile),
      tile.huggingMesh = none → tileHuggingEvents cam params tile = []) ∧
    (∀ (cam : CSMCascadeCamera) (i : Nat) (a : Aircraft),
      a.mesh = none → aircraftItemEvents cam i a = []) ∧
    (∀ (cam : CSMCascadeCamera) (tiles : List Tile),
      Ev.typeError ∉ renderBuildings cam tiles) ∧
    (∀ (cam : CSMCascadeCamera) (params : Tile → TileParams) (ringHeightTex : Nat)
        (tiles : List Tile),
      Ev.typeError ∉ renderHuggingMeshes cam params ringHeightTex tiles) ∧
    (∀ (cam : CSMCascadeCamera) (l : List Aircraft),
      Ev.typeError ∉ renderAircraft cam l) ∧
    (∀ (cam : CSMCascadeCamera) (name : String) (obj : InstancedObject),
      obj.mesh = none →
      (instanceEntryTr cam name obj).ok = false ∧
      Ev.typeError ∈ (instanceEntryTr cam name obj).events) := by
  refine ⟨?_, ?_, ?_, renderBuildings_no_typeError, renderHuggingMeshes_no_typeError,
    ?_, ?_⟩
  · intro cam tile h
    unfold tileBuildingEvents
    rw [h]
  · intro cam params tile h
    unfold tileHuggingEvents
    rw [h]
  · intro cam i a h
    unfold aircraftItemEvents
    rw [h]
  · intro cam l
    exact aircraftLoop_no_typeError cam l 0
  · intro cam name obj h
    unfold instanceEntryTr
    rw [h]
    by_cases hn : name = "tree" <;> simp [hn]

/-- Witness for C6 amended at concrete mesh-less items. -/
theorem missing_drawable_skip_amended_witness :
    tileBuildingEvents exCam exTileEmpty = [] ∧
    tileHuggingEvents exCam (fun _ => exTileParams) exTileEmpty = [] ∧
    aircraftItemEvents exCam 0 exAircraftNoMesh = [] ∧
    Ev.typeError ∉ renderBuildings exCam [exTile, exTileEmpty] ∧
    ((instanceEntryTr exCam "box" exObjNoMesh).ok = false ∧
      Ev.typeError ∈ (instanceEntryTr exCam "box" exObjNoMesh).events) :=
  ⟨missing_drawable_skip_amended.1 exCam exTileEmpty rfl,
   missing_drawable_skip_amended.2.1 exCam (fun _ => exTileParams) exTileEmpty rfl,
   missing_drawable_skip_amended.2.2.1 exCam 0 exAircraftNoMesh rfl,
   missing_drawable_skip_amended.2.2.2.1 exCam [exTile, exTileEmpty],
   missing_drawable_skip_amended.2.2.2.2.2.2 exCam "box" exObjNoMesh rfl⟩

/-- C7: an aircraft with a present mesh but `instanceCount == 0` is skipped
entirely — its loop-body trace is empty (no bind, no uniform write, no
draw), the aircraft bind count of a frame equals the number of drawable
aircraft (present mesh, positive count), and a list with no drawable
aircraft produces zero aircraft binds. -/
theorem zero_instance_aircraft_skipped :
    (∀ (cam : CSMCascadeCamera) (i : Nat) (a : Aircraft) (m : AircraftMesh),
      a.mesh = some m → m.instanceCount = 0 → aircraftItemEvents cam i a = []) ∧
    (∀ (cam : CSMCascadeCamera) (l : List Aircraft),
      (renderAircraft cam l).countP isAircraftBind = l.countP aircraftDrawable) ∧
    (∀ (cam : CSMCascadeCamera) (l : List Aircraft),
      (∀ a ∈ l, aircraftDrawable a = false) →
      (renderAircraft cam l).countP isAircraftBind = 0) := by
  refine ⟨?_, ?_, ?_⟩
  · intro cam i a m hm hc
    unfold aircraftItemEvents
    rw [hm]
    simp [hc]
  · intro cam l
    exact (aircraftLoop_bindCount cam l 0).1
  · intro cam l h
    have hb : (renderAircraft cam l).countP isAircraftBind = l.countP aircraftDrawable :=
      (aircraftLoop_bindCount cam l 0).1
    rw [hb]
    exact List.countP_eq_zero.mpr (fun a ha => by simp [h a ha])

/-- Witness for C7 at a zero-instance aircraft. -/
theorem zero_instance_aircraft_skipped_witness :
    aircraftItemEvents exCam 0 exAircraftZero = [] ∧
    (renderAircraft exCam [exAircraftZero]).countP isAircraftBind = 0 :=
  ⟨zero_instance_aircraft_skipped.1 exCam 0 exAircraftZero ⟨0⟩ rfl rfl,
   zero_instance_aircraft_skipped.2.2 exCam [exAircraftZero] (by decide)⟩

/-- C8: an instanced-object entry binds the tree depth material exactly
when its registry name is the string `"tree"`, and the generic instance
depth material otherwise; whenever its mesh is present, the entry's draw
is issued under that bind. -/
theorem instance_tree_material_dispatch :
    ∀ (cam : CSMCascadeCamera) (name : String) (obj : InstancedObject),
      ((instanceEntryTr cam name obj).events.countP isUseTree =
        if name = "tree" then 1 else 0) ∧
      ((instanceEntryTr cam name obj).events.countP isUseInst =
        if name = "tree" then 0 else 1) ∧
      ((instanceEntryTr cam name obj).events.head? =
        some (Ev.useMaterial (if name = "tree" then MaterialId.tree else MaterialId.inst))) ∧
      (obj.mesh.isSome = true →
        Ev.draw (DrawTarget.instanced name) ∈ (instanceEntryTr cam name obj).events) := by
  intro cam name obj
  refine ⟨?_, ?_, ?_, ?_⟩
  · unfold instanceEntryTr
    by_cases hn : name = "tree" <;> cases obj.mesh <;> simp [hn, isUseTree]
  · unfold instanceEntryTr
    by_cases hn : name = "tree" <;> cases obj.mesh <;> simp [hn, isUseInst]
  · unfold instanceEntryTr
    by_cases hn : name = "tree" <;> cases obj.mesh <;> simp [hn]
  · intro hs
    cases hk : obj.mesh with
    | none => rw [hk] at hs; simp at hs
    | some k => simp [instanceEntryTr, hk]

/-- Witness for C8 at the names `"tree"`, `"rock"` and `""`. -/
theorem instance_tree_material_dispatch_witness :
    ((instanceEntryTr exCam "tree" exObjA).events.countP isUseTree =
      if ("tree" : String) = "tree" then 1 else 0) ∧
    ((instanceEntryTr exCam "rock" exObjA).events.countP isUseInst =
      if ("rock" : String) = "tree" then 0 else 1) ∧
    ((instanceEntryTr exCam "" exObjA).events.countP isUseInst =
      if ("" : String) = "tree" then 0 else 1) ∧
    Ev.draw (DrawTarget.instanced "rock") ∈ (instanceEntryTr exCam "rock" exObjA).events :=
  ⟨(instance_tree_material_dispatch exCam "tree" exObjA).1,
   (instance_tree_material_dispatch exCam "rock" exObjA).2.1,
   (instance_tree_material_dispatch exCam "" exObjA).2.1,
   (instance_tree_material_dispatch exCam "rock" exObjA).2.2.2 (by decide)⟩

/-- C10: `WaterMask.updateMesh` is creation-guarded and idempotent — it
creates the mesh from the construction-time vertices buffer only when
`mesh` is still `null`, after one call `isMeshReady()` is true, a second
call changes nothing, and `isMeshReady()` is true exactly when `mesh` is
non-null. -/
theorem waterMask_updateMesh_guarded_idempotent :
    ∀ (r : WaterRenderer) (w : WaterMask),
      (WaterMask.isMeshReady w = true ↔ w.mesh ≠ none) ∧
      WaterMask.isMeshReady (WaterMask.updateMesh r w) = true ∧
      (w.mesh = none → (WaterMask.updateMesh r w).mesh =
        some (r.createMesh (positionAttributeSpec w.verticesBuffer))) ∧
      (w.mesh ≠ none → WaterMask.updateMesh r w = w) ∧
      WaterMask.updateMesh r (WaterMask.updateMesh r w) = WaterMask.updateMesh r w ∧
      (∀ vertices : List Nat,
        (WaterMask.updateMesh r (WaterMask.create vertices)).mesh =
          some (r.createMesh (positionAttributeSpec vertices))) := by
  intro r w
  rcases w with ⟨mo, vb⟩
  cases mo with
  | none =>
    refine ⟨?_, ?_, ?_, ?_, ?_, ?_⟩
    · simp [WaterMask.isMeshReady]
    · simp [WaterMask.isMeshReady, WaterMask.updateMesh]
    · intro _
      rfl
    · intro h
      exact absurd rfl h
    · rfl
    · intro v
      rfl
  | some k =>
    refine ⟨?_, ?_, ?_, ?_, ?_, ?_⟩
    · simp [WaterMask.isMeshReady]
    · simp [WaterMask.isMeshReady, WaterMask.updateMesh]
    · intro h
      exact Option.noConfusion h
    · intro _
      rfl
    · rfl
    · intro v
      rfl

/-- Witness for C10 at a concrete renderer and vertices buffer. -/
theorem waterMask_updateMesh_guarded_idempotent_witness :
    (WaterMask.updateMesh exWaterRenderer (WaterMask.create [1, 2, 3, 4])).mesh =
      some (exWaterRenderer.createMesh
        (positionAttributeSpec (WaterMask.create [1, 2, 3, 4]).verticesBuffer)) ∧
    WaterMask.isMeshReady
      (WaterMask.updateMesh exWaterRenderer (WaterMask.create [1, 2, 3, 4])) = true ∧
    WaterMask.updateMesh exWaterRenderer
        (WaterMask.updateMesh exWaterRenderer (WaterMask.create [1, 2, 3, 4])) =
      WaterMask.updateMesh exWaterRenderer (WaterMask.create [1, 2, 3, 4]) :=
  ⟨(waterMask_updateMesh_guarded_idempotent exWaterRenderer
      (WaterMask.create [1, 2, 3, 4])).2.2.1 rfl,
   (waterMask_updateMesh_guarded_idempotent exWaterRenderer
      (WaterMask.create [1, 2, 3, 4])).2.1,
   (waterMask_updateMesh_guarded_idempotent exWaterRenderer
      (WaterMask.create [1, 2, 3, 4])).2.2.2.2.1⟩
